import Mathlib

/-!
Verification of the presence, moderation and message-lifecycle engine of a
Socket.IO group-chat backend (`server.js`).  The server keeps its shared
room state in insertion-ordered JavaScript `Map`s and `Set`s; we embed those
as association lists (`List (String × α)`) and ordered lists of strings,
with operations that mirror the JavaScript semantics (a `Map.set` on an
existing key updates it in place, on a fresh key appends at the end;
`Set.add` appends when absent; `delete` removes the entry).

External collaborators (the `db` store, the transport, `Math.random`,
`Date.now`, id generation) are passed in as explicit inputs (`Env`,
`LoginCtx`), and all outward effects (db writes, socket emissions,
forced disconnects) are returned as an ordered effect log.
-/

namespace BbsBe

/-! ## JavaScript `Map` / `Set` primitives over insertion-ordered lists -/

/-- `Map.get` — first entry with the given key. -/
def mapGet {α : Type} (m : List (String × α)) (k : String) : Option α :=
  match m with
  | [] => none
  | (k2, v) :: rest => if k2 = k then some v else mapGet rest k

/-- `Map.has`. -/
def mapHas {α : Type} (m : List (String × α)) (k : String) : Bool :=
  (mapGet m k).isSome

/-- `Map.set` — update in place when the key exists, else append. -/
def mapSet {α : Type} (m : List (String × α)) (k : String) (v : α) :
    List (String × α) :=
  match m with
  | [] => [(k, v)]
  | (k2, v2) :: rest =>
    if k2 = k then (k, v) :: rest else (k2, v2) :: mapSet rest k v

/-- Update the value stored at an existing key, leaving everything else. -/
def mapUpdate {α : Type} (m : List (String × α)) (k : String) (f : α → α) :
    List (String × α) :=
  match m with
  | [] => []
  | (k2, v2) :: rest =>
    if k2 = k then (k, f v2) :: rest else (k2, v2) :: mapUpdate rest k f

/-- `Map.delete`. -/
def mapDelete {α : Type} (m : List (String × α)) (k : String) :
    List (String × α) :=
  match m with
  | [] => []
  | (k2, v2) :: rest =>
    if k2 = k then rest else (k2, v2) :: mapDelete rest k

/-- `Set.add` — append when absent (insertion order preserved). -/
def setAdd (l : List String) (x : String) : List String :=
  if x ∈ l then l else l ++ [x]

/-- `Set.delete` for duplicate-free lists. -/
def setDel (l : List String) (x : String) : List String :=
  l.erase x

/-! ## JavaScript string helpers (the core String functions of Lean do not
reduce in the kernel, so the exact JS behaviour is re-implemented over
`List Char`). -/

/-- Whitespace recognised by `String.prototype.trim`. -/
def isJsSpace (c : Char) : Bool :=
  c = ' ' || c = '\t' || c = '\n' || c = '\r'

/-- `trim` on a character list. -/
def jsTrimList (l : List Char) : List Char :=
  ((l.dropWhile isJsSpace).reverse.dropWhile isJsSpace).reverse

/-- `split(sep)` for a one-character separator, keeping empty pieces. -/
def jsSplitCh (sep : Char) : List Char → List (List Char)
  | [] => [[]]
  | c :: rest =>
    let r := jsSplitCh sep rest
    if c = sep then [] :: r
    else
      match r with
      | h :: t => (c :: h) :: t
      | [] => [[c]]

/-- `command.trim().split(' ')`. -/
def tokenize (s : String) : List String :=
  (jsSplitCh ' ' (jsTrimList s.toList)).map String.mk

/-- `toLowerCase` (ASCII range, as used on the command token). -/
def jsToLower (s : String) : String :=
  String.mk (s.toList.map Char.toLower)

/-- `text.startsWith('/')`. -/
def startsWithSlash (s : String) : Bool :=
  match s.toList with
  | c :: _ => c = '/'
  | [] => false

/-- `parseInt(s, 10)`: skip leading whitespace, optional sign, then leading
decimal digits; `none` models `NaN`. Trailing garbage is ignored. -/
def parseIntJS (s : String) : Option Int :=
  let cs := s.toList.dropWhile isJsSpace
  let signAndRest : Int × List Char :=
    match cs with
    | '-' :: rest => (-1, rest)
    | '+' :: rest => (1, rest)
    | _ => (1, cs)
  let digits := signAndRest.2.takeWhile Char.isDigit
  if digits = [] then none
  else some (signAndRest.1 * Int.ofNat
    (digits.foldl (fun n c => n * 10 + (c.toNat - 48)) 0))

/-- The regex `^(\d{1,3}\.){3}\d{1,3}$`: four dot-separated groups of one to
three decimal digits. -/
def isIPv4Shape (s : String) : Bool :=
  let parts := jsSplitCh '.' s.toList
  parts.length = 4 &&
    parts.all (fun p => 1 ≤ p.length && p.length ≤ 3 && p.all Char.isDigit)

/-- `s.includes(':')`. -/
def hasColon (s : String) : Bool :=
  s.toList.any (fun c => c = ':')

/-- Hexadecimal digit as accepted by `[0-9A-Fa-f]`. -/
def isHexChar (c : Char) : Bool :=
  c.isDigit || ('a' ≤ c && c ≤ 'f') || ('A' ≤ c && c ≤ 'F')

/-- The regex `^#[0-9A-Fa-f]{3,6}$` used by `/color`. -/
def isColorCode (s : String) : Bool :=
  match s.toList with
  | c :: rest =>
    c = '#' && 3 ≤ rest.length && rest.length ≤ 6 && rest.all isHexChar
  | [] => false

/-- UTF-16 length (`String.prototype.length` of JavaScript): astral
characters count twice. -/
def utf16Len (s : String) : Nat :=
  (s.toList.map (fun c => if c.toNat < 65536 then 1 else 2)).sum

/-- Truthiness of an optional string (`undefined`, `null` and `''` are
falsy in JavaScript). -/
def strTruthy : Option String → Bool
  | some s => s ≠ ""
  | none => false

/-- Join a list of strings with a separator (`Array.prototype.join`). -/
def joinWith (sep : String) : List String → String
  | [] => ""
  | [x] => x
  | x :: rest => x ++ sep ++ joinWith sep rest

/-! ## Data model -/

/-- A room message as built by the `sendMessage` handler.  Fields that a
particular message object omits (`isAdmin`, `isCommandResult`,
`statusText`) default to the JS-falsy value. -/
structure Msg where
  id : String
  username : String
  message : String
  color : String
  timestamp : String
  replyTo : Option String
  edited : Bool
  isAdmin : Bool := false
  isCommandResult : Bool := false
  statusText : String := ""
deriving DecidableEq

/-- The tagged result variants returned by `processCommand`; `noResult`
models the `null` returned for an unknown command. -/
inductive CmdResult where
  | error (message : String)
  | system (message : String)
  | priv (message : String)
  | commandResult (userMessage resultSender resultMessage resultColor : String)
  | noResult
deriving DecidableEq

/-- Outward effects: external-store writes, socket emissions and forced
disconnects, in the order the handler performs them.  Read-only store
calls are not logged. -/
inductive Effect where
  | dbDeleteAllMessages
  | emitAllMessagesDeleted
  | dbAddIpBan (ip bannedBy reason : String)
  | dbRemoveIpBan (ip : String)
  | emitBannedTo (sid message : String)
  | disconnectSocket (sid : String)
  | emitUserLeft (username : String) (userCount : Nat) (users : List String)
  | emitUserIpListTo (sid : String) (list : List (String × String))
  | dbAddPrivateMessage (id sender target message color timestamp : String)
  | emitPrivateMessageTo (sid id sender target message timestamp color : String)
  | emitPrivateMessageMonitorTo (sid id sender target message timestamp color : String)
  | emitPrivateMessageSentTo (sid id target message timestamp : String)
  | dbUpdateUser (username color : String)
  | emitProfileUpdatedTo (sid color : String)
  | emitSystemMessageTo (sid text : String)
  | emitSystemMessageAll (text : String)
  | emitMessageAll (m : Msg)
  | dbAddMessage (m : Msg)
  | dbSaveUserIpHistory (username ip : String)
  | emitUserJoinedBroadcast (username : String) (userCount : Nat) (users : List String)
  | userIpHistoryBroadcast
deriving DecidableEq

/-- The shared in-memory room state of `server.js`.  `users` maps a
display name to its cached color (the only field of the startup-loaded
`users` object the core reads or writes). -/
structure ServerState where
  users : List (String × String)
  messages : List Msg
  onlineUsers : List (String × String)
  userSockets : List (String × List String)
  adminUsers : List String
  mutedUsers : List (String × Nat)
  bannedUsers : List String
  userStatusMap : List (String × String)
  userIpMap : List (String × String)
deriving DecidableEq

/-- External inputs consumed by a single handler invocation: store
constants, the clock, the id generator, `Math.random`, liveness of socket
objects in `io.sockets.sockets`, and results of store calls. -/
structure Env where
  adminNames : List String
  maxHistory : Nat
  extraAdminPassword : String
  now : Nat
  nowIso : String
  nowIso2 : String
  newId : String
  newId2 : String
  rand : Rat
  sockLive : String → Bool
  removeIpBanOk : Bool
  ipBanRows : List (String × String × String)

/-! ## Session registry -/

/-- `addUserSocket`: ensure the identity has a socket set, then add the
socket id (idempotent). -/
def addUserSocket (m : List (String × List String)) (displayName socketId : String) :
    List (String × List String) :=
  if mapHas m displayName then
    mapUpdate m displayName (fun l => setAdd l socketId)
  else
    m ++ [(displayName, [socketId])]

/-- `removeUserSocket`: drop the socket id; delete the identity entry when
its set becomes empty, returning whether this was the last socket. -/
def removeUserSocket (m : List (String × List String)) (displayName socketId : String) :
    List (String × List String) × Bool :=
  match mapGet m displayName with
  | none => (m, false)
  | some l =>
    let l2 := setDel l socketId
    if l2 = [] then (mapDelete m displayName, true)
    else (mapUpdate m displayName (fun _ => l2), false)

/-- `getUniqueOnlineUsers`: the keys of `userSockets` in insertion order. -/
def getUniqueOnlineUsers (m : List (String × List String)) : List String :=
  m.map Prod.fst

/-! ## Moderation ledger -/

/-- Result of `checkMuted`. -/
structure MuteCheck where
  muted : Bool
  remaining : Nat := 0
deriving DecidableEq

/-- `checkMuted`: lazily expire the mute entry; an expired entry is
deleted as a side effect of the check.  `remaining` is
`Math.ceil((until - now) / 1000)`. -/
def checkMuted (now : Nat) (m : List (String × Nat)) (username : String) :
    MuteCheck × List (String × Nat) :=
  match mapGet m username with
  | some muteUntil =>
    if now < muteUntil then
      ({ muted := true, remaining := (muteUntil - now + 999) / 1000 }, m)
    else
      ({ muted := false }, mapDelete m username)
  | none => ({ muted := false }, m)

/-! ## Fortune draw -/

/-- The fixed `(result, weight)` table. -/
def fortunes : List (String × Rat) :=
  [("大吉", 8), ("中吉", 12), ("小吉", 20), ("吉", 15), ("凶", 20),
   ("大凶", 15), ("あれれ...結果が表示されませんでした。", 3), ("極大吉", 3),
   ("ミラクル,1%をあてた。", 1), ("???", 3)]

/-- The subtraction loop of `drawFortune`. -/
def drawLoop (r : Rat) : List (String × Rat) → Option (String × Rat)
  | [] => none
  | f :: rest =>
    let r2 := r - f.2
    if r2 ≤ 0 then some f else drawLoop r2 rest

/-- `drawFortune`: scale a uniform draw by the total weight and walk the
table; falls back to the first entry. -/
def drawFortune (rand : Rat) : String × Rat :=
  let totalWeight := (fortunes.map Prod.snd).foldl (· + ·) 0
  let random := rand * totalWeight
  match drawLoop random fortunes with
  | some f => f
  | none => fortunes.headD ("", 0)

/-! ## Command handlers (the branches of the `processCommand` switch) -/

/-- The per-socket part of the forced-disconnect loop shared by `/ban` and
`/ipban`: emit `banned` and disconnect each still-live socket. -/
def kickEffects (env : Env) (message : String) (sids : List String) : List Effect :=
  (sids.map fun sid =>
    if env.sockLive sid then
      [Effect.emitBannedTo sid message, Effect.disconnectSocket sid]
    else []).flatten

/-- The per-socket state cleanup of the same loop: drop each socket id
from `onlineUsers` and `adminUsers`. -/
def kickState (st : ServerState) (sids : List String) : ServerState :=
  { st with
    onlineUsers := sids.foldl mapDelete st.onlineUsers,
    adminUsers := sids.foldl setDel st.adminUsers }

/-- `broadcastUserIpList`: send the current identity→IP list to every
online privileged admin connection. -/
def broadcastUserIpList (env : Env) (st : ServerState) : List Effect :=
  let userIpList := st.userIpMap
  (env.adminNames.map fun adminName =>
    match mapGet st.userSockets adminName with
    | some sids =>
      (sids.filter env.sockLive).map fun sid => Effect.emitUserIpListTo sid userIpList
    | none => []).flatten

/-- `/delete`. -/
def cmdDelete (isAdmin : Bool) (st : ServerState) :
    CmdResult × ServerState × List Effect :=
  if ¬ isAdmin then (.error "このコマンドは管理者専用です", st, [])
  else
    (.system "管理者がすべてのメッセージを削除しました", { st with messages := [] },
      [Effect.dbDeleteAllMessages, Effect.emitAllMessagesDeleted])

/-- `/mute name secs`. -/
def cmdMute (env : Env) (args : List String) (username : String) (isAdmin : Bool)
    (st : ServerState) : CmdResult × ServerState × List Effect :=
  if ¬ isAdmin then (.error "このコマンドは管理者専用です", st, [])
  else if args.length < 2 then (.error "使用方法: /mute ユーザー名 時間(秒)", st, [])
  else
    let targetUser := args.headD ""
    match parseIntJS (args.tail.headD "") with
    | none => (.error "時間は正の数値で指定してください", st, [])
    | some muteTime =>
      if muteTime ≤ 0 then (.error "時間は正の数値で指定してください", st, [])
      else if targetUser ∉ getUniqueOnlineUsers st.userSockets then
        (.error "そのユーザーはオンラインではありません", st, [])
      else
        let muteTargetSocketSet := (mapGet st.userSockets targetUser).getD []
        let isMuteTargetAdmin :=
          muteTargetSocketSet.any fun sid => decide (sid ∈ st.adminUsers)
        if isMuteTargetAdmin ∧ username ∉ env.adminNames then
          (.error "管理者をミュートすることはできません", st, [])
        else
          (.system (targetUser ++ " を " ++ toString muteTime ++ "秒間ミュートしました"),
            { st with mutedUsers :=
                mapSet st.mutedUsers targetUser (env.now + muteTime.toNat * 1000) }, [])

/-- `/unmute name`. -/
def cmdUnmute (args : List String) (isAdmin : Bool) (st : ServerState) :
    CmdResult × ServerState × List Effect :=
  if ¬ isAdmin then (.error "このコマンドは管理者専用です", st, [])
  else if args.length < 1 then (.error "使用方法: /unmute ユーザー名", st, [])
  else
    let unmuteUser := args.headD ""
    if mapHas st.mutedUsers unmuteUser then
      (.system (unmuteUser ++ " のミュートを解除しました"),
        { st with mutedUsers := mapDelete st.mutedUsers unmuteUser }, [])
    else (.error "そのユーザーはミュートされていません", st, [])

/-- `/ban name`. -/
def cmdBan (env : Env) (args : List String) (username : String) (isAdmin : Bool)
    (st : ServerState) : CmdResult × ServerState × List Effect :=
  if ¬ isAdmin then (.error "このコマンドは管理者専用です", st, [])
  else if args.length < 1 then (.error "使用方法: /ban ユーザー名", st, [])
  else
    let banTarget := args.headD ""
    match mapGet st.userSockets banTarget with
    | none => (.error "そのユーザーはオンラインではありません", st, [])
    | some banUserSocketSet =>
      let isTargetAdmin :=
        banUserSocketSet.any fun sid => decide (sid ∈ st.adminUsers)
      if isTargetAdmin ∧ username ∉ env.adminNames then
        (.error "管理者をBANすることはできません", st, [])
      else
        let st1 := { st with bannedUsers := setAdd st.bannedUsers banTarget }
        let st2 := kickState st1 banUserSocketSet
        let st3 := { st2 with
          userSockets := mapDelete st2.userSockets banTarget,
          userStatusMap := mapDelete st2.userStatusMap banTarget }
        let uniqueOnlineUsers := getUniqueOnlineUsers st3.userSockets
        (.system (banTarget ++ " をチャットからBANしました"), st3,
          kickEffects env "管理者によりチャットから追い出されました" banUserSocketSet
            ++ [Effect.emitUserLeft banTarget uniqueOnlineUsers.length uniqueOnlineUsers])

/-- `/unban name`. -/
def cmdUnban (args : List String) (isAdmin : Bool) (st : ServerState) :
    CmdResult × ServerState × List Effect :=
  if ¬ isAdmin then (.error "このコマンドは管理者専用です", st, [])
  else if args.length < 1 then (.error "使用方法: /unban ユーザー名", st, [])
  else
    let unbanUser := args.headD ""
    if unbanUser ∈ st.bannedUsers then
      (.system (unbanUser ++ " のBANを解除しました"),
        { st with bannedUsers := setDel st.bannedUsers unbanUser }, [])
    else (.error "そのユーザーはBANされていません", st, [])

/-- First entry of `userIpMap` holding the given IP (the `for … of` lookup
loop in the direct-IP branch of `/ipban`). -/
def findIpOwner (userIpMap : List (String × String)) (ip : String) : Option String :=
  match userIpMap with
  | [] => none
  | (userName, uip) :: rest => if uip = ip then some userName else findIpOwner rest ip

/-- The forced-disconnect block of `/ipban` (used in both branches): kick
all sockets of `target`, purge its presence, status and IP entries, emit
`userLeft` and refresh the admin IP list. -/
def ipbanKick (env : Env) (st : ServerState) (target : String) :
    ServerState × List Effect :=
  let sids := (mapGet st.userSockets target).getD []
  let st2 := kickState st sids
  let st3 := { st2 with
    userSockets := mapDelete st2.userSockets target,
    userStatusMap := mapDelete st2.userStatusMap target,
    userIpMap := mapDelete st2.userIpMap target }
  let onl := getUniqueOnlineUsers st3.userSockets
  (st3, kickEffects env "あなたのIPアドレスはBANされました" sids
    ++ [Effect.emitUserLeft target onl.length onl]
    ++ broadcastUserIpList env st3)

/-- `/ipban name-or-ip`. -/
def cmdIpban (env : Env) (args : List String) (username : String)
    (st : ServerState) : CmdResult × ServerState × List Effect :=
  if username ∉ env.adminNames then (.error "このコマンドは特権管理者専用です", st, [])
  else if args.length < 1 then
    (.error "使用方法: /ipban ユーザー名 または /ipban IPアドレス", st, [])
  else
    let ipBanTarget := args.headD ""
    let isIpAddress := isIPv4Shape ipBanTarget || hasColon ipBanTarget
    if isIpAddress then
      let directIp := ipBanTarget
      let firstOwner := findIpOwner st.userIpMap directIp
      match firstOwner with
      | some owner =>
        if owner ∈ env.adminNames then
          (.error "特権管理者のIPをバンすることはできません", st, [])
        else
          let suffix := if strTruthy (some owner) then " (" ++ owner ++ ")" else ""
          let e0 := [Effect.dbAddIpBan directIp username ("IP直接バン" ++ suffix)]
          if strTruthy (some owner) ∧ mapHas st.userSockets owner then
            let (st3, kicks) := ipbanKick env st owner
            (.system (directIp ++ " をIPバンしました" ++ suffix), st3, e0 ++ kicks)
          else (.system (directIp ++ " をIPバンしました" ++ suffix), st, e0)
      | none =>
        (.system (directIp ++ " をIPバンしました"), st,
          [Effect.dbAddIpBan directIp username "IP直接バン"])
    else
      match mapGet st.userIpMap ipBanTarget with
      | none =>
        (.error "そのユーザーのIPが見つかりません（オンラインでないか、IPが取得できていません）", st, [])
      | some targetIp =>
        if targetIp = "" then
          (.error "そのユーザーのIPが見つかりません（オンラインでないか、IPが取得できていません）", st, [])
        else if ipBanTarget ∈ env.adminNames then
          (.error "特権管理者をIPバンすることはできません", st, [])
        else
          let e0 := [Effect.dbAddIpBan targetIp username (ipBanTarget ++ "をIPバン")]
          if mapHas st.userSockets ipBanTarget then
            let (st3, kicks) := ipbanKick env st ipBanTarget
            (.system (ipBanTarget ++ " (" ++ targetIp ++ ") をIPバンしました"), st3, e0 ++ kicks)
          else
            (.system (ipBanTarget ++ " (" ++ targetIp ++ ") をIPバンしました"), st, e0)

/-- `/ipunban ip`. -/
def cmdIpunban (env : Env) (args : List String) (username : String)
    (st : ServerState) : CmdResult × ServerState × List Effect :=
  if username ∉ env.adminNames then (.error "このコマンドは特権管理者専用です", st, [])
  else if args.length < 1 then (.error "使用方法: /IPバン解除 IPアドレス", st, [])
  else
    let ipToUnban := args.headD ""
    if env.removeIpBanOk then
      (.system (ipToUnban ++ " のIPバンを解除しました"), st, [Effect.dbRemoveIpBan ipToUnban])
    else
      (.error "そのIPアドレスはIPバンされていません", st, [Effect.dbRemoveIpBan ipToUnban])

/-- `/ipbanlist`. -/
def cmdIpbanlist (env : Env) (username : String) (st : ServerState) :
    CmdResult × ServerState × List Effect :=
  if username ∉ env.adminNames then (.error "このコマンドは特権管理者専用です", st, [])
  else if env.ipBanRows = [] then (.system "IPバンリストは空です", st, [])
  else
    let rows := env.ipBanRows.map fun r =>
      r.1 ++ " (理由: " ++ r.2.1 ++ ", by: " ++ r.2.2 ++ ")"
    (.system ("【IPバンリスト】\n" ++ joinWith "\n" rows), st, [])

/-- The color `/prm` attaches: the sender's cached color, with the JS
`|| '#000000'` fallback. -/
def prmColorOf (st : ServerState) (username : String) : String :=
  let c := (mapGet st.users username).getD ""
  if c = "" then "#000000" else c

/-- `/prm name text`. -/
def cmdPrm (env : Env) (args : List String) (username sid : String)
    (st : ServerState) : CmdResult × ServerState × List Effect :=
  if args.length < 2 then (.error "使用方法: /prm ユーザー名 メッセージ", st, [])
  else
    let prmTarget := args.headD ""
    let prmMessage := joinWith " " args.tail
    if ¬ mapHas st.userSockets prmTarget then
      (.error "そのユーザーはオンラインではありません", st, [])
    else if prmTarget = username then
      (.error "自分自身にプライベートメッセージは送れません", st, [])
    else
      let prmTimestamp := env.nowIso
      let prmColor :=
        let c := (mapGet st.users username).getD ""
        if c = "" then "#000000" else c
      let prmId := env.newId
      let targetSids := (mapGet st.userSockets prmTarget).getD []
      (.priv (prmTarget ++ " にプライベートメッセージを送信しました"), st,
        [Effect.dbAddPrivateMessage prmId username prmTarget prmMessage prmColor prmTimestamp]
        ++ ((targetSids.filter env.sockLive).map fun s =>
              Effect.emitPrivateMessageTo s prmId username prmTarget prmMessage prmTimestamp prmColor)
        ++ ((env.adminNames.map fun adminName =>
              match mapGet st.userSockets adminName with
              | some sids =>
                (sids.filter env.sockLive).map fun s =>
                  Effect.emitPrivateMessageMonitorTo s prmId username prmTarget prmMessage prmTimestamp prmColor
              | none => []).flatten)
        ++ [Effect.emitPrivateMessageSentTo sid prmId prmTarget prmMessage prmTimestamp])

/-- `/omi`, `/omikuji`. -/
def cmdOmikuji (env : Env) (st : ServerState) :
    CmdResult × ServerState × List Effect :=
  let fortune := drawFortune env.rand
  (.commandResult "おみくじを引いた🎴" "おみくじ" ("【" ++ fortune.1 ++ "】") "#e74c3c", st, [])

/-- `/color #hex`. -/
def cmdColor (args : List String) (username sid : String) (st : ServerState) :
    CmdResult × ServerState × List Effect :=
  let a0 := args.headD ""
  if a0 ≠ "" ∧ isColorCode a0 then
    if mapHas st.users username then
      (.system (username ++ "さんの名前の色を " ++ a0 ++ " に変更しました"),
        { st with users := mapSet st.users username a0 },
        [Effect.dbUpdateUser username a0, Effect.emitProfileUpdatedTo sid a0])
    else (.error "使用方法: /color #カラーコード (例: /color #ff0000)", st, [])
  else (.error "使用方法: /color #カラーコード (例: /color #ff0000)", st, [])

/-- `/dice`. -/
def cmdDice (env : Env) (st : ServerState) :
    CmdResult × ServerState × List Effect :=
  let dice : Int := (env.rand * 6).floor + 1
  (.commandResult "サイコロを振った🎲" "サイコロ" ("🎲 " ++ toString dice ++ " が出た！") "#3498db",
    st, [])

/-- `/coin`. -/
def cmdCoin (env : Env) (st : ServerState) :
    CmdResult × ServerState × List Effect :=
  let coin := if env.rand < 1 / 2 then "表" else "裏"
  (.commandResult "コインを投げた🪙" "コイン" ("🪙 " ++ coin ++ "！") "#f39c12", st, [])

/-- `/help` (admin section appended for admins). -/
def cmdHelp (isAdmin : Bool) (st : ServerState) :
    CmdResult × ServerState × List Effect :=
  let base := "コマンド一覧:\n/omi - おみくじを引く\n/color #カラーコード - 名前の色を変更\n/dice - サイコロを振る\n/coin - コインを投げる\n/prm ユーザー名 内容 - プライベートメッセージを送る\n/help - このヘルプを表示"
  let adminExtra := "\n\n【管理者専用】\n/delete - 全メッセージを削除\n/mute ユーザー名 時間 - ユーザーをミュート\n/unmute ユーザー名 - ミュート解除\n/ban ユーザー名 - チャットから追い出す\n/unban ユーザー名 - BAN解除"
  (.system (base ++ if isAdmin then adminExtra else ""), st, [])

/-- The `switch (cmd)` of `processCommand`. -/
def dispatchCommand (env : Env) (cmd : String) (args : List String)
    (username sid : String) (isAdmin : Bool) (st : ServerState) :
    CmdResult × ServerState × List Effect :=
  if cmd = "/delete" then cmdDelete isAdmin st
  else if cmd = "/mute" then cmdMute env args username isAdmin st
  else if cmd = "/unmute" then cmdUnmute args isAdmin st
  else if cmd = "/ban" then cmdBan env args username isAdmin st
  else if cmd = "/unban" then cmdUnban args isAdmin st
  else if cmd = "/ipバン" ∨ cmd = "/ipban" then cmdIpban env args username st
  else if cmd = "/ipバン解除" ∨ cmd = "/ipunban" then cmdIpunban env args username st
  else if cmd = "/ipバンリスト" ∨ cmd = "/ipbanlist" then cmdIpbanlist env username st
  else if cmd = "/prm" then cmdPrm env args username sid st
  else if cmd = "/omi" ∨ cmd = "/omikuji" then cmdOmikuji env st
  else if cmd = "/color" then cmdColor args username sid st
  else if cmd = "/dice" then cmdDice env st
  else if cmd = "/coin" then cmdCoin env st
  else if cmd = "/help" then cmdHelp isAdmin st
  else (.noResult, st, [])

/-- `processCommand`: tokenize, lower-case the command word, dispatch. -/
def processCommand (env : Env) (command username sid : String) (isAdmin : Bool)
    (st : ServerState) : CmdResult × ServerState × List Effect :=
  let parts := tokenize command
  let cmd := jsToLower (parts.headD "")
  let args := parts.tail
  dispatchCommand env cmd args username sid isAdmin st

/-! ## Message lifecycle -/

/-- `addMessageToStorage`: push onto the bounded ring, `shift` the oldest
entry once the length exceeds `MAX_HISTORY`, then mirror to the store. -/
def addMessageToStorage (maxHistory : Nat) (msgs : List Msg) (messageData : Msg) :
    List Msg × List Effect :=
  let msgs1 := msgs ++ [messageData]
  (if maxHistory < msgs1.length then msgs1.tail else msgs1,
    [Effect.dbAddMessage messageData])

/-- The acknowledgment sent through the `sendMessage` callback. -/
inductive SendCallback where
  | noCall
  | ok (id : Option String)
  | fail (error : String)
deriving DecidableEq

/-- The plain-chat-line tail of the `sendMessage` handler (also reached
when a slash command is unknown). -/
def plainSend (env : Env) (displayName statusText effColor : String)
    (isAdmin : Bool) (text : String) (replyTo : Option String) (st : ServerState) :
    SendCallback × ServerState × List Effect :=
  let messageData : Msg :=
    { id := env.newId, username := displayName, message := text, color := effColor,
      timestamp := env.nowIso, replyTo := replyTo, edited := false,
      isAdmin := isAdmin, statusText := statusText }
  let r := addMessageToStorage env.maxHistory st.messages messageData
  (.ok (some messageData.id), { st with messages := r.1 },
    r.2 ++ [Effect.emitMessageAll messageData])

/-- The `socket.on('sendMessage')` handler.  `currentUser` and
`accountColor` are the connection-local session variables; the mute check
runs before any dispatch, append, persistence or broadcast. -/
def sendMessage (env : Env) (currentUser : Option String)
    (accountColor : Option String) (sid : String) (text : String)
    (replyTo : Option String) (st : ServerState) :
    SendCallback × ServerState × List Effect :=
  match currentUser with
  | none => (.noCall, st, [])
  | some user =>
    let isAdmin := decide (sid ∈ st.adminUsers)
    let displayName := if isAdmin then user ++ " 管理者" else user
    let statusText := (mapGet st.userStatusMap user).getD ""
    let mc := checkMuted env.now st.mutedUsers user
    let stM := { st with mutedUsers := mc.2 }
    if mc.1.muted then
      (.fail "ミュート中です", stM,
        [Effect.emitSystemMessageTo sid
          ("あなたはミュートされています。残り" ++ toString mc.1.remaining ++ "秒")])
    else
      let effColor :=
        match accountColor with
        | some c => if c = "" then "#000000" else c
        | none => "#000000"
      let replyToNorm :=
        match replyTo with
        | some r => if r = "" then none else some r
        | none => none
      if startsWithSlash text then
        let pr := processCommand env text user sid isAdmin stM
        match pr.1 with
        | .error m =>
          (.ok none, pr.2.1, pr.2.2 ++ [Effect.emitSystemMessageTo sid m])
        | .commandResult um rs rm rc =>
          let userMsgData : Msg :=
            { id := env.newId, username := displayName, message := um,
              color := effColor, timestamp := env.nowIso, replyTo := none,
              edited := false, isAdmin := isAdmin, statusText := statusText }
          let r1 := addMessageToStorage env.maxHistory pr.2.1.messages userMsgData
          let resultMsgData : Msg :=
            { id := env.newId2, username := rs, message := rm, color := rc,
              timestamp := env.nowIso2, replyTo := none, edited := false,
              isCommandResult := true }
          let r2 := addMessageToStorage env.maxHistory r1.1 resultMsgData
          (.ok none, { pr.2.1 with messages := r2.1 },
            pr.2.2 ++ r1.2 ++ [Effect.emitMessageAll userMsgData]
              ++ r2.2 ++ [Effect.emitMessageAll resultMsgData])
        | .priv m =>
          (.ok none, pr.2.1, pr.2.2 ++ [Effect.emitSystemMessageTo sid m])
        | .system m =>
          (.ok none, pr.2.1, pr.2.2 ++ [Effect.emitSystemMessageAll m])
        | .noResult =>
          plainSend env displayName statusText effColor isAdmin text replyToNorm pr.2.1
      else
        plainSend env displayName statusText effColor isAdmin text replyToNorm stM

/-! ## Authentication handlers -/

/-- The slice of a store account record the core reads. -/
structure Account where
  displayName : String
  isAdmin : Bool
  statusText : String := ""
deriving DecidableEq

/-- External inputs of one login attempt: store availability, the client
IP and its persisted-ban status, and the store's authentication result. -/
structure LoginCtx where
  dbConnected : Bool
  clientIp : String
  ipBanned : Bool
  loginResult : Option Account
  loginError : String
  freshMessages : Option (List Msg)

/-- What the login callback reports. -/
inductive LoginOutcome where
  | failure (error : String)
  | success (account : Account) (onlineUsersList : List String)
      (history : List Msg) (userStatuses : List (String × String))
deriving DecidableEq

/-- The shared tail of both login handlers once authentication succeeded
and the ban check passed: register presence, grant the per-connection
admin flag, cache the status text, refresh the ring from the store and
broadcast join events. -/
def loginSuccess (env : Env) (ctx : LoginCtx) (account : Account)
    (grantAdminByPassword : Bool) (sid : String) (st : ServerState) :
    LoginOutcome × ServerState × List Effect :=
  let currentAccount :=
    if grantAdminByPassword then { account with isAdmin := true } else account
  let currentUser := account.displayName
  let st1 := { st with
    onlineUsers := mapSet st.onlineUsers sid currentUser,
    userIpMap := mapSet st.userIpMap currentUser ctx.clientIp }
  let isFirstSocket := ¬ mapHas st1.userSockets currentUser
  let st2 := { st1 with userSockets := addUserSocket st1.userSockets currentUser sid }
  let st3 :=
    if account.isAdmin || grantAdminByPassword then
      { st2 with adminUsers := setAdd st2.adminUsers sid }
    else st2
  let st4 :=
    if account.statusText ≠ "" then
      { st3 with userStatusMap := mapSet st3.userStatusMap currentUser account.statusText }
    else st3
  let st5 :=
    match ctx.freshMessages with
    | some ms => { st4 with messages := ms }
    | none => st4
  let uniq := getUniqueOnlineUsers st5.userSockets
  (.success currentAccount uniq st5.messages st5.userStatusMap, st5,
    [Effect.dbSaveUserIpHistory currentUser ctx.clientIp]
    ++ (if isFirstSocket then
          [Effect.emitUserJoinedBroadcast currentUser uniq.length uniq]
        else [])
    ++ broadcastUserIpList env st5 ++ [Effect.userIpHistoryBroadcast])

/-- The `socket.on('accountLogin')` handler. -/
def accountLogin (env : Env) (ctx : LoginCtx) (username password : String)
    (adminLogin : Bool) (adminPassword : String) (sid : String)
    (st : ServerState) : LoginOutcome × ServerState × List Effect :=
  if ¬ ctx.dbConnected then (.failure "データベースに接続されていません", st, [])
  else if ctx.ipBanned then (.failure "あなたのIPアドレスはBANされています", st, [])
  else if username = "" then (.failure "名前を入力してください", st, [])
  else if password = "" then (.failure "パスワードを入力してください", st, [])
  else if adminLogin ∧ (adminPassword = "" ∨ adminPassword ≠ env.extraAdminPassword) then
    (.failure "管理者パスワードが正しくありません", st, [])
  else
    match ctx.loginResult with
    | some account =>
      if account.displayName ∈ st.bannedUsers then
        (.failure "あなたはチャットからBANされています", st, [])
      else
        let grantAdminByPassword :=
          adminLogin && decide (adminPassword = env.extraAdminPassword)
        loginSuccess env ctx account grantAdminByPassword sid st
    | none => (.failure ctx.loginError, st, [])

/-- The `socket.on('tokenLogin')` handler. -/
def tokenLogin (env : Env) (ctx : LoginCtx) (token : String) (sid : String)
    (st : ServerState) : LoginOutcome × ServerState × List Effect :=
  if ¬ ctx.dbConnected then (.failure "データベースに接続されていません", st, [])
  else if ctx.ipBanned then (.failure "あなたのIPアドレスはBANされています", st, [])
  else if token = "" then (.failure "トークンが必要です", st, [])
  else
    match ctx.loginResult with
    | none => (.failure ctx.loginError, st, [])
    | some account =>
      if account.displayName ∈ st.bannedUsers then
        (.failure "あなたはチャットからBANされています", st, [])
      else loginSuccess env ctx account false sid st

/-! ## Signup validation -/

/-- `username.includes('管理者')`. -/
def containsAdminMarker (s : String) : Bool :=
  decide (List.IsInfix "管理者".toList s.toList)

/-- What the signup handler does before delegating to the store. -/
inductive SignupOutcome where
  | rejected (error : String)
  | delegated
deriving DecidableEq

/-- The validation gauntlet of `socket.on('signup')`: `delegated` means
every check passed and `db.signup` is invoked. -/
def signupHandler (dbConnected : Bool) (username password : String) :
    SignupOutcome :=
  if ¬ dbConnected then .rejected "データベースに接続されていません"
  else if username = "" ∨ utf16Len username < 1 ∨ utf16Len username > 20 then
    .rejected "ユーザー名は1〜20文字で入力してください"
  else if password = "" ∨ utf16Len password < 4 then
    .rejected "パスワードは4文字以上で入力してください"
  else if containsAdminMarker username then .rejected "この名前は使用できません"
  else .delegated

/-- The display name the `sendMessage` handler uses for an admin-flagged
connection: `` `${currentUser} 管理者` ``. -/
def adminDisplayName (currentUser : String) : String :=
  currentUser ++ " 管理者"

/-! ## Presence event sequences (for the registry invariant) -/

/-- One connection-lifecycle event on the session registry. -/
inductive PresenceEvent where
  | connect (name sid : String)
  | disconnect (name sid : String)
deriving DecidableEq

/-- Apply one event to `userSockets` the way the connect / disconnect
handlers do. -/
def applyPresence (m : List (String × List String)) :
    PresenceEvent → List (String × List String)
  | .connect n s => addUserSocket m n s
  | .disconnect n s => (removeUserSocket m n s).1

/-- The registry after a whole event sequence, starting from the empty
map the server boots with. -/
def runPresence (es : List PresenceEvent) : List (String × List String) :=
  es.foldl applyPresence []

/-- The step of the reference model: the set of identities currently-open
connections, tracked per identity directly from the event sequence. -/
def openStep (u : String) (l : List String) : PresenceEvent → List String
  | .connect n s => if n = u then setAdd l s else l
  | .disconnect n s => if n = u then setDel l s else l

/-- The connections of `u` that are open after `es`: connected at some
point and not closed since. -/
def openSockets (es : List PresenceEvent) (u : String) : List String :=
  es.foldl (openStep u) []

/-- The registry agrees pointwise with the per-identity reference model,
and its keys are duplicate-free. -/
def PresenceInv (m : List (String × List String)) (g : String → List String) :
    Prop :=
  (m.map Prod.fst).Nodup ∧
    ∀ u, mapGet m u = (if g u = [] then none else some (g u))

/-! ## Concrete fixtures used by witnesses and counterexamples -/

/-- A concrete environment: `"Root"` is the only privileged-admin name. -/
def envFix : Env :=
  { adminNames := ["Root"], maxHistory := 500, extraAdminPassword := "pw",
    now := 1000, nowIso := "T1", nowIso2 := "T2", newId := "id1",
    newId2 := "id2", rand := 0, sockLive := fun _ => true,
    removeIpBanOk := true, ipBanRows := [] }

/-- A concrete state: `"Eve"` is online on socket `s1` holding the
per-connection SessionAdmin flag; `"Root"` (privileged name) is online on
socket `s2` with no SessionAdmin flag. -/
def stFix : ServerState :=
  { users := [("Eve", "#123456")], messages := [],
    onlineUsers := [("s1", "Eve"), ("s2", "Root")],
    userSockets := [("Eve", ["s1"]), ("Root", ["s2"])],
    adminUsers := ["s1"], mutedUsers := [], bannedUsers := [],
    userStatusMap := [("Root", "hi")],
    userIpMap := [("Eve", "9.9.9.9"), ("Root", "1.2.3.4")] }

/-- `stFix` with the startup-loaded `users` cache empty. -/
def stFixNoCache : ServerState := { stFix with users := [] }

/-- A minimal concrete message for ring witnesses. -/
def mFix (i : String) : Msg :=
  { id := i, username := "u", message := "m", color := "#000000",
    timestamp := "T", replyTo := none, edited := false }

/-- A concrete login context: the store authenticates `"Mallory"`. -/
def ctxFix : LoginCtx :=
  { dbConnected := true, clientIp := "7.7.7.7", ipBanned := false,
    loginResult := some { displayName := "Mallory", isAdmin := false },
    loginError := "", freshMessages := none }

/-- `stFix` with `"Mallory"` in the in-memory ban set. -/
def stBanFix : ServerState := { stFix with bannedUsers := ["Mallory"] }

/-! ## Association-list lemmas -/

theorem mapGet_eq_none_iff {α : Type} (m : List (String × α)) (k : String) :
    mapGet m k = none ↔ k ∉ m.map Prod.fst := by
  induction m with
  | nil => simp [mapGet]
  | cons p rest ih =>
    obtain ⟨k2, v⟩ := p
    rw [mapGet]
    by_cases h : k2 = k
    · subst h
      simp
    · simp only [if_neg h, List.map_cons, List.mem_cons, ih]
      constructor
      · intro hk hor
        rcases hor with h1 | h2
        · exact h h1.symm
        · exact hk h2
      · intro hk hmem
        exact hk (Or.inr hmem)

theorem mapGet_append {α : Type} (m l : List (String × α)) (k : String) :
    mapGet (m ++ l) k =
      (match mapGet m k with
       | some v => some v
       | none => mapGet l k) := by
  induction m with
  | nil => simp [mapGet]
  | cons p rest ih =>
    obtain ⟨k2, v⟩ := p
    by_cases h : k2 = k <;> simp [mapGet, h, ih]

theorem mapGet_mapUpdate_self {α : Type} (m : List (String × α)) (k : String)
    (f : α → α) : mapGet (mapUpdate m k f) k = (mapGet m k).map f := by
  induction m with
  | nil => simp [mapGet, mapUpdate]
  | cons p rest ih =>
    obtain ⟨k2, v⟩ := p
    by_cases h : k2 = k <;> simp [mapGet, mapUpdate, h, ih]

theorem mapGet_mapUpdate_ne {α : Type} (m : List (String × α)) (k u : String)
    (f : α → α) (h : u ≠ k) : mapGet (mapUpdate m k f) u = mapGet m u := by
  induction m with
  | nil => rfl
  | cons p rest ih =>
    obtain ⟨k2, v⟩ := p
    rw [mapUpdate]
    by_cases h2 : k2 = k
    · subst h2
      rw [if_pos rfl]
      simp only [mapGet]
      rw [if_neg (Ne.symm h), if_neg (Ne.symm h)]
    · rw [if_neg h2]
      simp only [mapGet]
      by_cases h3 : k2 = u
      · rw [if_pos h3, if_pos h3]
      · rw [if_neg h3, if_neg h3]
        exact ih

theorem keys_mapUpdate {α : Type} (m : List (String × α)) (k : String)
    (f : α → α) : (mapUpdate m k f).map Prod.fst = m.map Prod.fst := by
  induction m with
  | nil => simp [mapUpdate]
  | cons p rest ih =>
    obtain ⟨k2, v⟩ := p
    by_cases h : k2 = k <;> simp [mapUpdate, h, ih]

theorem mapGet_mapDelete_ne {α : Type} (m : List (String × α)) (k u : String)
    (h : u ≠ k) : mapGet (mapDelete m k) u = mapGet m u := by
  induction m with
  | nil => rfl
  | cons p rest ih =>
    obtain ⟨k2, v⟩ := p
    rw [mapDelete]
    by_cases h2 : k2 = k
    · subst h2
      rw [if_pos rfl]
      simp only [mapGet]
      rw [if_neg (Ne.symm h)]
    · rw [if_neg h2]
      simp only [mapGet]
      by_cases h3 : k2 = u
      · rw [if_pos h3, if_pos h3]
      · rw [if_neg h3, if_neg h3]
        exact ih

theorem mapDelete_sublist {α : Type} (m : List (String × α)) (k : String) :
    (mapDelete m k).Sublist m := by
  induction m with
  | nil => simp [mapDelete]
  | cons p rest ih =>
    obtain ⟨k2, v⟩ := p
    by_cases h : k2 = k
    · simp only [mapDelete, if_pos h]
      exact List.sublist_cons_self (k2, v) rest
    · simp only [mapDelete, if_neg h]
      exact ih.cons₂ (k2, v)

theorem mapGet_mapDelete_self {α : Type} (m : List (String × α)) (k : String)
    (hnd : (m.map Prod.fst).Nodup) : mapGet (mapDelete m k) k = none := by
  induction m with
  | nil => simp [mapDelete, mapGet]
  | cons p rest ih =>
    obtain ⟨k2, v⟩ := p
    simp only [List.map_cons, List.nodup_cons] at hnd
    by_cases h : k2 = k
    · subst h
      rw [mapDelete]
      simp only [if_pos rfl]
      rw [mapGet_eq_none_iff]
      exact hnd.1
    · rw [mapDelete]
      simp only [if_neg h]
      rw [mapGet]
      simp [h, ih hnd.2]

/-- `setAdd` never produces the empty list. -/
theorem setAdd_ne_nil (l : List String) (x : String) : setAdd l x ≠ [] := by
  unfold setAdd
  split
  · intro h
    subst h
    simp_all
  · simp

theorem setAdd_idem (l : List String) (x : String) :
    setAdd (setAdd l x) x = setAdd l x := by
  unfold setAdd
  split
  · simp_all
  · simp

theorem mapUpdate_comp {α : Type} (m : List (String × α)) (k : String)
    (f g : α → α) :
    mapUpdate (mapUpdate m k f) k g = mapUpdate m k (fun v => g (f v)) := by
  induction m with
  | nil => simp [mapUpdate]
  | cons p rest ih =>
    obtain ⟨k2, v⟩ := p
    by_cases h : k2 = k <;> simp [mapUpdate, h, ih]

theorem mapUpdate_congr {α : Type} (m : List (String × α)) (k : String)
    (f g : α → α) (h : ∀ v, f v = g v) : mapUpdate m k f = mapUpdate m k g := by
  induction m with
  | nil => simp [mapUpdate]
  | cons p rest ih =>
    obtain ⟨k2, v⟩ := p
    by_cases h2 : k2 = k <;> simp [mapUpdate, h2, ih, h]

theorem mapUpdate_append_fresh {α : Type} (m : List (String × α)) (k : String)
    (l : α) (f : α → α) (h : mapGet m k = none) :
    mapUpdate (m ++ [(k, l)]) k f = m ++ [(k, f l)] := by
  induction m with
  | nil => simp [mapUpdate]
  | cons p rest ih =>
    obtain ⟨k2, v⟩ := p
    rw [mapGet] at h
    by_cases h2 : k2 = k
    · simp [h2] at h
    · simp only [if_neg h2] at h
      simp [mapUpdate, h2, ih h]

/-! ## Session-registry lemmas -/

theorem removeUserSocket_eq_absent (m : List (String × List String))
    (n s : String) (hv : mapGet m n = none) :
    removeUserSocket m n s = (m, false) := by
  unfold removeUserSocket
  rw [hv]

theorem removeUserSocket_eq_present (m : List (String × List String))
    (n s : String) (l : List String) (hv : mapGet m n = some l) :
    removeUserSocket m n s =
      (if setDel l s = [] then (mapDelete m n, true)
       else (mapUpdate m n fun _ => setDel l s, false)) := by
  unfold removeUserSocket
  rw [hv]

theorem mapGet_addUserSocket_self (m : List (String × List String))
    (n s : String) :
    mapGet (addUserSocket m n s) n = some (setAdd ((mapGet m n).getD []) s) := by
  unfold addUserSocket
  by_cases h : mapHas m n
  · rw [if_pos h, mapGet_mapUpdate_self]
    unfold mapHas at h
    cases hv : mapGet m n with
    | none => rw [hv] at h; simp at h
    | some l => simp
  · rw [if_neg h, mapGet_append]
    unfold mapHas at h
    cases hv : mapGet m n with
    | none => simp [mapGet, setAdd]
    | some l => rw [hv] at h; simp at h

theorem mapGet_addUserSocket_ne (m : List (String × List String))
    (n s u : String) (h : u ≠ n) :
    mapGet (addUserSocket m n s) u = mapGet m u := by
  unfold addUserSocket
  by_cases hm : mapHas m n
  · rw [if_pos hm, mapGet_mapUpdate_ne _ _ _ _ h]
  · rw [if_neg hm, mapGet_append]
    cases hv : mapGet m u with
    | none => simp [mapGet, Ne.symm h]
    | some l => simp

theorem keys_addUserSocket (m : List (String × List String)) (n s : String) :
    (addUserSocket m n s).map Prod.fst =
      if mapHas m n then m.map Prod.fst else m.map Prod.fst ++ [n] := by
  unfold addUserSocket
  by_cases h : mapHas m n <;> simp [h, keys_mapUpdate]

theorem removeUserSocket_fst_keys_nodup (m : List (String × List String))
    (n s : String) (hnd : (m.map Prod.fst).Nodup) :
    (((removeUserSocket m n s).1).map Prod.fst).Nodup := by
  cases hv : mapGet m n with
  | none => rw [removeUserSocket_eq_absent m n s hv]; exact hnd
  | some l =>
    rw [removeUserSocket_eq_present m n s l hv]
    by_cases h : setDel l s = []
    · rw [if_pos h]
      exact hnd.sublist ((mapDelete_sublist m n).map Prod.fst)
    · rw [if_neg h]
      show ((mapUpdate m n fun _ => setDel l s).map Prod.fst).Nodup
      rw [keys_mapUpdate]
      exact hnd

theorem mapGet_removeUserSocket_ne (m : List (String × List String))
    (n s u : String) (h : u ≠ n) :
    mapGet ((removeUserSocket m n s).1) u = mapGet m u := by
  cases hv : mapGet m n with
  | none => rw [removeUserSocket_eq_absent m n s hv]
  | some l =>
    rw [removeUserSocket_eq_present m n s l hv]
    by_cases h2 : setDel l s = []
    · rw [if_pos h2]
      exact mapGet_mapDelete_ne m n u h
    · rw [if_neg h2]
      exact mapGet_mapUpdate_ne m n u _ h

/-! ## The presence invariant -/

theorem presenceInv_step (m : List (String × List String))
    (g : String → List String) (e : PresenceEvent) (h : PresenceInv m g) :
    PresenceInv (applyPresence m e) (fun u => openStep u (g u) e) := by
  obtain ⟨hnd, hpt⟩ := h
  cases e with
  | connect n s =>
    refine ⟨?_, ?_⟩
    · show ((addUserSocket m n s).map Prod.fst).Nodup
      rw [keys_addUserSocket]
      by_cases hm : mapHas m n
      · rw [if_pos hm]; exact hnd
      · rw [if_neg hm]
        have hn : n ∉ m.map Prod.fst := by
          rw [← mapGet_eq_none_iff]
          cases hv : mapGet m n with
          | none => rfl
          | some l => unfold mapHas at hm; rw [hv] at hm; simp at hm
        simp [List.nodup_append, hnd, hn]
    · intro u
      show mapGet (addUserSocket m n s) u = _
      by_cases hu : u = n
      · subst hu
        rw [mapGet_addUserSocket_self, hpt u]
        have hg : (if g u = [] then (none : Option (List String))
            else some (g u)).getD [] = g u := by
          by_cases hz : g u = [] <;> simp [hz]
        rw [hg]
        simp [openStep, setAdd_ne_nil]
      · rw [mapGet_addUserSocket_ne _ _ _ _ hu, hpt u]
        simp [openStep, Ne.symm hu]
  | disconnect n s =>
    refine ⟨removeUserSocket_fst_keys_nodup m n s hnd, ?_⟩
    intro u
    show mapGet ((removeUserSocket m n s).1) u = _
    by_cases hu : u = n
    · subst hu
      have hm := hpt u
      by_cases hz : g u = []
      · rw [if_pos hz] at hm
        rw [removeUserSocket_eq_absent m u s hm]
        simp [hpt u, hz, openStep, setDel]
      · rw [if_neg hz] at hm
        rw [removeUserSocket_eq_present m u s (g u) hm]
        by_cases h2 : setDel (g u) s = []
        · rw [if_pos h2]
          show mapGet (mapDelete m u) u = _
          rw [mapGet_mapDelete_self m u hnd]
          simp [openStep, h2]
        · rw [if_neg h2]
          show mapGet (mapUpdate m u fun _ => setDel (g u) s) u = _
          rw [mapGet_mapUpdate_self, hm]
          simp [openStep, h2]
    · rw [mapGet_removeUserSocket_ne _ _ _ _ hu, hpt u]
      simp [openStep, Ne.symm hu]

theorem presenceInv_foldl (es : List PresenceEvent) :
    ∀ (m : List (String × List String)) (g : String → List String),
      PresenceInv m g →
      PresenceInv (es.foldl applyPresence m)
        (fun u => es.foldl (openStep u) (g u)) := by
  induction es with
  | nil => intro m g h; exact h
  | cons e rest ih =>
    intro m g h
    exact ih (applyPresence m e) _ (presenceInv_step m g e h)

theorem presenceInv_run (es : List PresenceEvent) :
    PresenceInv (runPresence es) (openSockets es) := by
  have h0 : PresenceInv [] (fun _ => []) := by
    refine ⟨by simp, ?_⟩
    intro u
    simp [mapGet]
  exact presenceInv_foldl es [] (fun _ => []) h0

theorem addUserSocket_idem (m : List (String × List String)) (n s : String) :
    addUserSocket (addUserSocket m n s) n s = addUserSocket m n s := by
  have hhas : mapHas (addUserSocket m n s) n = true := by
    unfold mapHas
    rw [mapGet_addUserSocket_self]
    rfl
  have houter : addUserSocket (addUserSocket m n s) n s
      = mapUpdate (addUserSocket m n s) n (fun l => setAdd l s) := by
    conv_lhs => rw [addUserSocket]
    rw [if_pos hhas]
  rw [houter]
  by_cases hm : mapHas m n
  · have hin : addUserSocket m n s = mapUpdate m n (fun l => setAdd l s) := by
      unfold addUserSocket
      rw [if_pos hm]
    rw [hin, mapUpdate_comp,
      mapUpdate_congr m n _ (fun l => setAdd l s) (fun v => setAdd_idem v s)]
  · have hv : mapGet m n = none := by
      unfold mapHas at hm
      cases hv : mapGet m n with
      | none => rfl
      | some l => rw [hv] at hm; simp at hm
    have hin : addUserSocket m n s = m ++ [(n, [s])] := by
      unfold addUserSocket
      rw [if_neg hm]
    rw [hin, mapUpdate_append_fresh m n [s] _ hv]
    have hs : setAdd [s] s = [s] := by simp [setAdd]
    rw [hs]

/-! ## Small helper equations -/

theorem mem_keys_of_mapGet_some {α : Type} (m : List (String × α))
    (k : String) (v : α) (h : mapGet m k = some v) : k ∈ m.map Prod.fst := by
  by_contra hmem
  rw [← mapGet_eq_none_iff] at hmem
  rw [h] at hmem
  cases hmem

theorem checkMuted_present (now : Nat) (m : List (String × Nat)) (u : String)
    (muteUntil : Nat) (hv : mapGet m u = some muteUntil) :
    checkMuted now m u =
      (if now < muteUntil then
        ({ muted := true, remaining := (muteUntil - now + 999) / 1000 }, m)
       else ({ muted := false }, mapDelete m u)) := by
  unfold checkMuted
  rw [hv]

theorem checkMuted_absent (now : Nat) (m : List (String × Nat)) (u : String)
    (hv : mapGet m u = none) :
    checkMuted now m u = ({ muted := false }, m) := by
  unfold checkMuted
  rw [hv]

/-! ## Claims -/

/-- C2: after any sequence of connect/disconnect events starting from the
empty registry, an identity appears in the online-user list iff at least
one of its connections is currently open; no identity is ever registered
with an empty socket set; and adding a connection id is an idempotent
insert into the identity's socket set. -/
theorem c2_presence_registry_iff_open (es : List PresenceEvent) (u : String) :
    ((u ∈ getUniqueOnlineUsers (runPresence es)) ↔ openSockets es u ≠ []) ∧
    (∀ l, mapGet (runPresence es) u = some l → l ≠ []) ∧
    (∀ m n s, addUserSocket (addUserSocket m n s) n s = addUserSocket m n s) := by
  obtain ⟨hnd, hpt⟩ := presenceInv_run es
  refine ⟨⟨?_, ?_⟩, ?_, ?_⟩
  · intro hmem hopen
    have h := hpt u
    rw [if_pos hopen, mapGet_eq_none_iff] at h
    exact h hmem
  · intro hopen
    have h := hpt u
    rw [if_neg hopen] at h
    exact mem_keys_of_mapGet_some _ _ _ h
  · intro l hl
    have h := hpt u
    by_cases hz : openSockets es u = []
    · rw [if_pos hz, hl] at h
      cases h
    · rw [if_neg hz, hl] at h
      injection h with h2
      rw [h2]
      exact hz
  · exact addUserSocket_idem

/-- C2 witness: concrete event sequences exercising both directions of
the iff. -/
theorem c2_presence_registry_iff_open_witness :
    ("A" ∈ getUniqueOnlineUsers (runPresence
      [PresenceEvent.connect "A" "s1", PresenceEvent.connect "A" "s2",
       PresenceEvent.disconnect "A" "s1"])) ∧
    ("B" ∉ getUniqueOnlineUsers (runPresence
      [PresenceEvent.connect "B" "s1", PresenceEvent.disconnect "B" "s1"])) := by
  constructor
  · exact (c2_presence_registry_iff_open
      [PresenceEvent.connect "A" "s1", PresenceEvent.connect "A" "s2",
       PresenceEvent.disconnect "A" "s1"] "A").1.mpr (by decide)
  · intro hmem
    exact (by decide : ¬ openSockets
        [PresenceEvent.connect "B" "s1", PresenceEvent.disconnect "B" "s1"] "B" ≠ [])
      ((c2_presence_registry_iff_open
        [PresenceEvent.connect "B" "s1", PresenceEvent.disconnect "B" "s1"] "B").1.mp hmem)

/-- C3: for a mute entry with expiry `t0 + d*1000`, a check strictly
before the expiry reports muted with the remaining seconds rounded up
(the bounds pin `remaining` as the ceiling of `(expiry − t)/1000`); a
check at or after the expiry reports unmuted and deletes the entry; a
check on an identity with no entry reports unmuted and changes nothing. -/
theorem c3_checkMuted_expiry (m : List (String × Nat)) (u : String)
    (t0 d t : Nat) (hentry : mapGet m u = some (t0 + d * 1000)) :
    (t < t0 + d * 1000 →
      checkMuted t m u =
        ({ muted := true, remaining := (t0 + d * 1000 - t + 999) / 1000 }, m) ∧
      (t0 + d * 1000 - t) ≤ 1000 * ((t0 + d * 1000 - t + 999) / 1000) ∧
      1000 * ((t0 + d * 1000 - t + 999) / 1000) < (t0 + d * 1000 - t) + 1000) ∧
    (t0 + d * 1000 ≤ t →
      checkMuted t m u = ({ muted := false }, mapDelete m u)) ∧
    (∀ (m2 : List (String × Nat)) (u2 : String), mapGet m2 u2 = none →
      checkMuted t m2 u2 = ({ muted := false }, m2)) := by
  refine ⟨?_, ?_, ?_⟩
  · intro h
    refine ⟨?_, ?_, ?_⟩
    · rw [checkMuted_present t m u _ hentry, if_pos h]
    · omega
    · omega
  · intro h
    rw [checkMuted_present t m u _ hentry, if_neg (by omega)]
  · intro m2 u2 h2
    exact checkMuted_absent t m2 u2 h2

/-- C3 witness: a 5-second mute set at time 0, checked at 1s and at
exactly 5s. -/
theorem c3_checkMuted_expiry_witness :
    checkMuted 1000 [("B", 5000)] "B" = ({ muted := true, remaining := 4 }, [("B", 5000)]) ∧
    checkMuted 5000 [("B", 5000)] "B" = ({ muted := false }, []) := by
  constructor
  · have h := ((c3_checkMuted_expiry [("B", 5000)] "B" 0 5 1000 (by decide)).1
      (by decide)).1
    simpa using h
  · have h := (c3_checkMuted_expiry [("B", 5000)] "B" 0 5 5000 (by decide)).2.1
      (by decide)
    simpa [mapDelete] using h

/-- C5: for a currently muted sender, `sendMessage` — chat line and slash
command alike — is rejected before any command dispatch, ring append,
persistence call or broadcast: the only emission is the mute notice to
the sender's own connection, the callback reports the mute error, and the
entire shared state (ring, mute map, ban set, presence) is unchanged. -/
theorem c5_muted_sender_rejected (env : Env) (st : ServerState) (u : String)
    (acctColor : Option String) (sid text : String) (replyTo : Option String)
    (muteUntil : Nat) (hentry : mapGet st.mutedUsers u = some muteUntil)
    (hnow : env.now < muteUntil) :
    sendMessage env (some u) acctColor sid text replyTo st =
      (.fail "ミュート中です", st,
        [Effect.emitSystemMessageTo sid
          ("あなたはミュートされています。残り"
            ++ toString ((muteUntil - env.now + 999) / 1000) ++ "秒")]) := by
  simp only [sendMessage]
  rw [checkMuted_present env.now st.mutedUsers u muteUntil hentry, if_pos hnow]
  simp

/-- C5 witness: a muted `"Eve"` sending a chat line. -/
theorem c5_muted_sender_rejected_witness :
    sendMessage envFix (some "Eve") none "s1" "hello" none
        { stFix with mutedUsers := [("Eve", 5000)] } =
      (.fail "ミュート中です", { stFix with mutedUsers := [("Eve", 5000)] },
        [Effect.emitSystemMessageTo "s1" "あなたはミュートされています。残り4秒"]) := by
  have h := c5_muted_sender_rejected envFix
    { stFix with mutedUsers := [("Eve", 5000)] }
    "Eve" none "s1" "hello" none 5000 (by decide) (by decide)
  exact h.trans (by decide)

/-- C6: if the in-memory ring holds at most `MAX_HISTORY` entries before
an append, it does after as well; below the cap the append is plain, and
at the cap exactly the oldest entry is evicted, preserving the relative
order of the rest. -/
theorem c6_ring_capped (maxHistory : Nat) (msgs : List Msg) (m : Msg)
    (h : msgs.length ≤ maxHistory) :
    ((addMessageToStorage maxHistory msgs m).1.length ≤ maxHistory) ∧
    (msgs.length < maxHistory →
      (addMessageToStorage maxHistory msgs m).1 = msgs ++ [m]) ∧
    (msgs.length = maxHistory → 0 < maxHistory →
      (addMessageToStorage maxHistory msgs m).1 = msgs.tail ++ [m]) := by
  simp only [addMessageToStorage]
  refine ⟨?_, ?_, ?_⟩
  · by_cases hc : maxHistory < (msgs ++ [m]).length
    · rw [if_pos hc]
      simp only [List.length_tail, List.length_append, List.length_singleton] at *
      omega
    · rw [if_neg hc]
      simp only [List.length_append, List.length_singleton] at *
      omega
  · intro hlt
    rw [if_neg (by simp only [List.length_append, List.length_singleton]; omega)]
  · intro heq hpos
    rw [if_pos (by simp only [List.length_append, List.length_singleton]; omega)]
    cases msgs with
    | nil =>
      simp only [List.length_nil] at heq
      omega
    | cons a rest => simp

/-- C6 witness: a ring with cap 2, at and below the cap. -/
theorem c6_ring_capped_witness :
    (addMessageToStorage 2 [mFix "1", mFix "2"] (mFix "3")).1
      = [mFix "2", mFix "3"] ∧
    (addMessageToStorage 2 [mFix "1"] (mFix "2")).1 = [mFix "1", mFix "2"] := by
  constructor
  · have h := (c6_ring_capped 2 [mFix "1", mFix "2"] (mFix "3") (by decide)).2.2
      (by decide) (by decide)
    exact h.trans (by decide)
  · have h := (c6_ring_capped 2 [mFix "1"] (mFix "2") (by decide)).2.1 (by decide)
    exact h.trans (by decide)

/-- C9: signup delegates to the store only when the username avoids the
admin marker `管理者`, its UTF-16 length is within 1–20 and the password
has at least 4 units; any name containing the marker is rejected; and the
admin display suffix the server appends always contains the marker, so it
cannot be forged through signup. -/
theorem c9_signup_guard (dbConnected : Bool) (username password : String) :
    (signupHandler dbConnected username password = .delegated →
      containsAdminMarker username = false ∧
      1 ≤ utf16Len username ∧ utf16Len username ≤ 20 ∧ 4 ≤ utf16Len password) ∧
    (containsAdminMarker username = true →
      signupHandler dbConnected username password ≠ .delegated) ∧
    (∀ v, containsAdminMarker (adminDisplayName v) = true) := by
  refine ⟨?_, ?_, ?_⟩
  · intro h
    unfold signupHandler at h
    split_ifs at h with h1 h2 h3 h4
    push_neg at h2 h3
    exact ⟨by simpa using h4, by omega, by omega, by omega⟩
  · intro hmark h
    unfold signupHandler at h
    split_ifs at h
  · intro v
    unfold containsAdminMarker adminDisplayName
    apply decide_eq_true
    have hsplit : (v ++ " 管理者").toList = v.toList ++ (" 管理者").toList := rfl
    rw [hsplit]
    exact List.IsInfix.trans (by decide)
      (List.IsSuffix.isInfix (List.suffix_append v.toList (" 管理者").toList))

/-- C9 witness: a plain name passes the gauntlet, a marker-bearing name
does not. -/
theorem c9_signup_guard_witness :
    (containsAdminMarker "Alice" = false ∧ 1 ≤ utf16Len "Alice" ∧
      utf16Len "Alice" ≤ 20 ∧ 4 ≤ utf16Len "pass") ∧
    signupHandler true "悪い管理者" "pass" ≠ SignupOutcome.delegated := by
  constructor
  · exact (c9_signup_guard true "Alice" "pass").1 (by decide)
  · exact (c9_signup_guard true "悪い管理者" "pass").2.1 (by decide)

/-- C10: both the password and the token login handlers reject an
identity in the in-memory ban set with the ban error, before any
presence, admin-flag, status or IP-cache state is modified and before any
external write. -/
theorem c10_banned_login_rejected (env : Env) (ctx : LoginCtx)
    (st : ServerState) (account : Account)
    (username password adminPassword token sid : String) (adminLogin : Bool)
    (hdb : ctx.dbConnected = true) (hip : ctx.ipBanned = false)
    (hres : ctx.loginResult = some account)
    (hban : account.displayName ∈ st.bannedUsers)
    (hu : username ≠ "") (hp : password ≠ "")
    (hap : adminLogin = true →
      adminPassword = env.extraAdminPassword ∧ adminPassword ≠ "")
    (htok : token ≠ "") :
    accountLogin env ctx username password adminLogin adminPassword sid st =
      (.failure "あなたはチャットからBANされています", st, []) ∧
    tokenLogin env ctx token sid st =
      (.failure "あなたはチャットからBANされています", st, []) := by
  have hadm : ¬ (adminLogin = true ∧
      (adminPassword = "" ∨ adminPassword ≠ env.extraAdminPassword)) := by
    rintro ⟨ha, hor⟩
    obtain ⟨he, hne⟩ := hap ha
    rcases hor with h1 | h2
    · exact hne h1
    · exact h2 he
  constructor
  · unfold accountLogin
    rw [if_neg (by simp [hdb]), if_neg (by simp [hip]), if_neg hu, if_neg hp,
      if_neg hadm, hres]
    dsimp only
    rw [if_pos hban]
  · unfold tokenLogin
    rw [if_neg (by simp [hdb]), if_neg (by simp [hip]), if_neg htok, hres]
    dsimp only
    rw [if_pos hban]

/-- C1 counterexample: `"Eve"` holds only the per-connection SessionAdmin
flag and is not in the privileged name list, yet `/mute Root 5` succeeds
against `"Root"` — a privileged-name identity whose only connection
carries no SessionAdmin flag — and the mute map changes. -/
theorem c1_counterexample :
    "Eve" ∉ envFix.adminNames ∧ "Root" ∈ envFix.adminNames ∧
    (processCommand envFix "/mute Root 5" "Eve" "s1" true stFix).1
      = CmdResult.system "Root を 5秒間ミュートしました" ∧
    mapGet (processCommand envFix "/mute Root 5" "Eve" "s1" true stFix).2.1.mutedUsers
      "Root" = some 6000 := by decide

/-- C1 (amended): an actor outside the privileged name list cannot mute
or ban a target that holds SessionAdmin on at least one connection — the
command fails with the authorization error, changes no state and performs
no effect — and `/ipban` refuses any actor outside the privileged name
list outright, for every argument list. -/
theorem c1_admin_target_protection (env : Env) (st : ServerState)
    (username target secsStr : String) (ipArgs : List String) (t : Int)
    (hactor : username ∉ env.adminNames)
    (sids : List String) (hsids : mapGet st.userSockets target = some sids)
    (hadm : sids.any (fun s => decide (s ∈ st.adminUsers)) = true)
    (hpt : parseIntJS secsStr = some t) (ht : 0 < t) :
    cmdMute env [target, secsStr] username true st
      = (.error "管理者をミュートすることはできません", st, []) ∧
    cmdBan env [target] username true st
      = (.error "管理者をBANすることはできません", st, []) ∧
    cmdIpban env ipArgs username st
      = (.error "このコマンドは特権管理者専用です", st, []) := by
  have honline : target ∈ getUniqueOnlineUsers st.userSockets :=
    mem_keys_of_mapGet_some _ _ _ hsids
  refine ⟨?_, ?_, ?_⟩
  · unfold cmdMute
    rw [if_neg (by simp), if_neg (by simp)]
    simp only [List.headD_cons, List.tail_cons, hpt]
    rw [if_neg (by omega), if_neg (not_not_intro honline), hsids]
    simp only [Option.getD_some]
    rw [if_pos ⟨hadm, hactor⟩]
  · unfold cmdBan
    rw [if_neg (by simp), if_neg (by simp)]
    simp only [List.headD_cons]
    rw [hsids]
    dsimp only
    rw [if_pos ⟨hadm, hactor⟩]
  · unfold cmdIpban
    rw [if_pos hactor]

/-- C1 witness for the amended protection at a concrete state: actor
`"Mallory"` (not privileged), target `"Eve"` whose socket `s1` holds
SessionAdmin. -/
theorem c1_admin_target_protection_witness :
    cmdMute envFix ["Eve", "5"] "Mallory" true stFix
      = (.error "管理者をミュートすることはできません", stFix, []) ∧
    cmdBan envFix ["Eve"] "Mallory" true stFix
      = (.error "管理者をBANすることはできません", stFix, []) ∧
    cmdIpban envFix ["Eve"] "Mallory" stFix
      = (.error "このコマンドは特権管理者専用です", stFix, []) := by
  exact c1_admin_target_protection envFix stFix "Mallory" "Eve" "5" ["Eve"] 5
    (by decide) ["s1"] (by decide) (by decide) (by decide) (by decide)

/-- Both per-socket kick emissions are in the kick-effect log of every
live socket of the target. -/
theorem mem_kickEffects (env : Env) (msg : String) (sids : List String)
    (s : String) (hs : s ∈ sids) (hlive : env.sockLive s = true) :
    Effect.emitBannedTo s msg ∈ kickEffects env msg sids ∧
    Effect.disconnectSocket s ∈ kickEffects env msg sids := by
  unfold kickEffects
  constructor <;>
  · rw [List.mem_flatten]
    exact ⟨_, List.mem_map_of_mem _ hs, by simp [hlive]⟩

/-- C4 counterexample: a successful `/ban Root` adds the target to the
ban set and reports success, yet the target's entry in the IP cache
(`userIpMap`) is still present afterwards — the IP-cache entry is not
purged as the claim states. -/
theorem c4_counterexample :
    (processCommand envFix "/ban Root" "Eve" "s1" true stFix).1
      = CmdResult.system "Root をチャットからBANしました" ∧
    "Root" ∈ (processCommand envFix "/ban Root" "Eve" "s1" true stFix).2.1.bannedUsers ∧
    mapGet (processCommand envFix "/ban Root" "Eve" "s1" true stFix).2.1.userIpMap
      "Root" = some "1.2.3.4" := by decide

/-- C4 (amended): a successful `/ban` of an online target adds it to the
ban set, emits `banned` and a forced disconnect to each of the target's
live connections, purges the target's presence and status-cache entries,
leaves the IP-cache entry in place, and emits a room-wide `userLeft`
broadcast with the updated user list. -/
theorem c4_ban_effects (env : Env) (st : ServerState) (username target : String)
    (sids : List String) (hsids : mapGet st.userSockets target = some sids)
    (hok : ¬ (sids.any (fun s => decide (s ∈ st.adminUsers)) = true ∧
      username ∉ env.adminNames)) :
    (cmdBan env [target] username true st).1
      = .system (target ++ " をチャットからBANしました") ∧
    (cmdBan env [target] username true st).2.1.bannedUsers
      = setAdd st.bannedUsers target ∧
    (cmdBan env [target] username true st).2.1.userSockets
      = mapDelete st.userSockets target ∧
    (cmdBan env [target] username true st).2.1.userStatusMap
      = mapDelete st.userStatusMap target ∧
    (cmdBan env [target] username true st).2.1.userIpMap = st.userIpMap ∧
    (∀ s ∈ sids, env.sockLive s = true →
      Effect.emitBannedTo s "管理者によりチャットから追い出されました"
          ∈ (cmdBan env [target] username true st).2.2 ∧
      Effect.disconnectSocket s ∈ (cmdBan env [target] username true st).2.2) ∧
    Effect.emitUserLeft target
        (getUniqueOnlineUsers (mapDelete st.userSockets target)).length
        (getUniqueOnlineUsers (mapDelete st.userSockets target))
      ∈ (cmdBan env [target] username true st).2.2 := by
  have hcmd : cmdBan env [target] username true st =
      (.system (target ++ " をチャットからBANしました"),
       { st with bannedUsers := setAdd st.bannedUsers target,
                 onlineUsers := sids.foldl mapDelete st.onlineUsers,
                 adminUsers := sids.foldl setDel st.adminUsers,
                 userSockets := mapDelete st.userSockets target,
                 userStatusMap := mapDelete st.userStatusMap target },
       kickEffects env "管理者によりチャットから追い出されました" sids
         ++ [Effect.emitUserLeft target
              (getUniqueOnlineUsers (mapDelete st.userSockets target)).length
              (getUniqueOnlineUsers (mapDelete st.userSockets target))]) := by
    unfold cmdBan
    rw [if_neg (by simp), if_neg (by simp)]
    simp only [List.headD_cons]
    rw [hsids]
    dsimp only
    rw [if_neg hok]
    rfl
  refine ⟨by rw [hcmd], by rw [hcmd], by rw [hcmd], by rw [hcmd], by rw [hcmd],
    ?_, ?_⟩
  · intro s hs hlive
    rw [hcmd]
    exact ⟨List.mem_append_left _ (mem_kickEffects env _ sids s hs hlive).1,
      List.mem_append_left _ (mem_kickEffects env _ sids s hs hlive).2⟩
  · rw [hcmd]
    exact List.mem_append_right _ (List.mem_singleton_self _)

/-- C4 witness: `"Eve"` (SessionAdmin) bans `"Root"`, whose only socket
carries no admin flag: IP cache retained, presence purged. -/
theorem c4_ban_effects_witness :
    (cmdBan envFix ["Root"] "Eve" true stFix).2.1.userIpMap = stFix.userIpMap ∧
    (cmdBan envFix ["Root"] "Eve" true stFix).2.1.userSockets
      = mapDelete stFix.userSockets "Root" ∧
    Effect.disconnectSocket "s2" ∈ (cmdBan envFix ["Root"] "Eve" true stFix).2.2 := by
  have h := c4_ban_effects envFix stFix "Eve" "Root" ["s2"] (by decide) (by decide)
  exact ⟨h.2.2.2.2.1, h.2.2.1,
    (h.2.2.2.2.2.1 "s2" (by decide) (by decide)).2⟩

/-- C7: `/prm` fails with an error and no state change or effect when the
recipient is offline; a self-targeted send also fails with no state
change or effect (the offline check runs first, so the error message
depends on whether the sender-as-recipient is registered); on success it
persists the message, delivers `privateMessage` to every live connection
of the recipient, delivers a monitor copy to every live connection of
every privileged-admin identity — with no exclusion of the recipient, so
a recipient admin also gets the monitor copy — and emits exactly one
delivery confirmation, addressed to the sender's own connection. -/
theorem c7_prm_routing (env : Env) (st : ServerState)
    (username sid target : String) (rest : List String) (hrest : rest ≠ []) :
    (mapGet st.userSockets target = none →
      cmdPrm env (target :: rest) username sid st
        = (.error "そのユーザーはオンラインではありません", st, [])) ∧
    (target = username →
      (cmdPrm env (target :: rest) username sid st).2.1 = st ∧
      (cmdPrm env (target :: rest) username sid st).2.2 = [] ∧
      ∃ msg, (cmdPrm env (target :: rest) username sid st).1
        = CmdResult.error msg) ∧
    (∀ tsids, mapGet st.userSockets target = some tsids → target ≠ username →
      (cmdPrm env (target :: rest) username sid st).1
        = .priv (target ++ " にプライベートメッセージを送信しました") ∧
      (cmdPrm env (target :: rest) username sid st).2.1 = st ∧
      Effect.dbAddPrivateMessage env.newId username target (joinWith " " rest)
          (prmColorOf st username) env.nowIso
        ∈ (cmdPrm env (target :: rest) username sid st).2.2 ∧
      (∀ s ∈ tsids, env.sockLive s = true →
        Effect.emitPrivateMessageTo s env.newId username target
            (joinWith " " rest) env.nowIso (prmColorOf st username)
          ∈ (cmdPrm env (target :: rest) username sid st).2.2) ∧
      (∀ a ∈ env.adminNames, ∀ asids, mapGet st.userSockets a = some asids →
        ∀ s ∈ asids, env.sockLive s = true →
          Effect.emitPrivateMessageMonitorTo s env.newId username target
              (joinWith " " rest) env.nowIso (prmColorOf st username)
            ∈ (cmdPrm env (target :: rest) username sid st).2.2) ∧
      Effect.emitPrivateMessageSentTo sid env.newId target (joinWith " " rest)
          env.nowIso
        ∈ (cmdPrm env (target :: rest) username sid st).2.2 ∧
      (∀ s2 i2 t2 m2 ts2,
        Effect.emitPrivateMessageSentTo s2 i2 t2 m2 ts2
            ∈ (cmdPrm env (target :: rest) username sid st).2.2 → s2 = sid)) := by
  have hlen : ¬ ((target :: rest).length < 2) := by
    have := List.length_pos.mpr hrest
    simp only [List.length_cons]
    omega
  refine ⟨?_, ?_, ?_⟩
  · intro hoff
    unfold cmdPrm
    rw [if_neg hlen]
    simp only [List.headD_cons, List.tail_cons]
    rw [if_pos (by unfold mapHas; rw [hoff]; simp)]
  · intro hself
    unfold cmdPrm
    rw [if_neg hlen]
    simp only [List.headD_cons, List.tail_cons]
    by_cases hon : mapHas st.userSockets target
    · rw [if_neg (by simp [hon]), if_pos hself]
      exact ⟨rfl, rfl, _, rfl⟩
    · rw [if_pos (by simp [hon])]
      exact ⟨rfl, rfl, _, rfl⟩
  · intro tsids hsids htne
    have hhas : mapHas st.userSockets target = true := by
      unfold mapHas
      rw [hsids]
      rfl
    have hcmd : cmdPrm env (target :: rest) username sid st =
        (.priv (target ++ " にプライベートメッセージを送信しました"), st,
          [Effect.dbAddPrivateMessage env.newId username target
            (joinWith " " rest) (prmColorOf st username) env.nowIso]
          ++ ((tsids.filter env.sockLive).map fun s =>
               Effect.emitPrivateMessageTo s env.newId username target
                 (joinWith " " rest) env.nowIso (prmColorOf st username))
          ++ ((env.adminNames.map fun adminName =>
                match mapGet st.userSockets adminName with
                | some asids =>
                  (asids.filter env.sockLive).map fun s =>
                    Effect.emitPrivateMessageMonitorTo s env.newId username
                      target (joinWith " " rest) env.nowIso
                      (prmColorOf st username)
                | none => []).flatten)
          ++ [Effect.emitPrivateMessageSentTo sid env.newId target
               (joinWith " " rest) env.nowIso]) := by
      unfold cmdPrm
      rw [if_neg hlen]
      simp only [List.headD_cons, List.tail_cons]
      rw [if_neg (by simp [hhas]), if_neg htne, hsids]
      rfl
    refine ⟨by rw [hcmd], by rw [hcmd], ?_, ?_, ?_, ?_, ?_⟩
    · rw [hcmd]
      simp
    · intro s hs hlive
      rw [hcmd]
      have hmem : s ∈ tsids.filter env.sockLive :=
        List.mem_filter.mpr ⟨hs, hlive⟩
      exact List.mem_append_left _ (List.mem_append_left _
        (List.mem_append_right _ (List.mem_map_of_mem _ hmem)))
    · intro a ha asids hasids s hs hlive
      rw [hcmd]
      have hmem : s ∈ asids.filter env.sockLive :=
        List.mem_filter.mpr ⟨hs, hlive⟩
      have hinner : Effect.emitPrivateMessageMonitorTo s env.newId username
          target (joinWith " " rest) env.nowIso (prmColorOf st username)
          ∈ (asids.filter env.sockLive).map fun s2 =>
              Effect.emitPrivateMessageMonitorTo s2 env.newId username target
                (joinWith " " rest) env.nowIso (prmColorOf st username) :=
        List.mem_map_of_mem _ hmem
      have houter : ((asids.filter env.sockLive).map fun s2 =>
          Effect.emitPrivateMessageMonitorTo s2 env.newId username target
            (joinWith " " rest) env.nowIso (prmColorOf st username))
          ∈ env.adminNames.map fun adminName =>
              match mapGet st.userSockets adminName with
              | some asids2 =>
                (asids2.filter env.sockLive).map fun s2 =>
                  Effect.emitPrivateMessageMonitorTo s2 env.newId username
                    target (joinWith " " rest) env.nowIso
                    (prmColorOf st username)
              | none => [] := by
        have hfa := List.mem_map_of_mem (fun adminName =>
          match mapGet st.userSockets adminName with
          | some asids2 =>
            (asids2.filter env.sockLive).map fun s2 =>
              Effect.emitPrivateMessageMonitorTo s2 env.newId username target
                (joinWith " " rest) env.nowIso (prmColorOf st username)
          | none => []) ha
        simp only [] at hfa
        rw [hasids] at hfa
        exact hfa
      exact List.mem_append_left _ (List.mem_append_right _
        (List.mem_flatten.mpr ⟨_, houter, hinner⟩))
    · rw [hcmd]
      exact List.mem_append_right _ (List.mem_singleton_self _)
    · intro s2 i2 t2 m2 ts2 hmem
      rw [hcmd] at hmem
      simp only [List.mem_append, List.mem_singleton, List.mem_cons,
        List.not_mem_nil, or_false, List.mem_flatten, List.mem_map] at hmem
      rcases hmem with ((hdb | hA) | hB) | hsent
      · cases hdb
      · obtain ⟨x, _, hx⟩ := hA
        cases hx
      · obtain ⟨l, ⟨a2, _, hfa⟩, hin⟩ := hB
        cases hv : mapGet st.userSockets a2 with
        | none =>
          rw [hv] at hfa
          rw [← hfa] at hin
          cases hin
        | some asids2 =>
          rw [hv] at hfa
          rw [← hfa] at hin
          obtain ⟨x, _, hx⟩ := List.mem_map.mp hin
          cases hx
      · exact (Effect.emitPrivateMessageSentTo.inj hsent).1

/-- C7 witness: `"Eve"` sends `/prm Root hello world` while `"Root"` (a
privileged admin) is online: routed, monitored and confirmed. -/
theorem c7_prm_routing_witness :
    (cmdPrm envFix ["Root", "hello", "world"] "Eve" "s1" stFix).1
      = CmdResult.priv "Root にプライベートメッセージを送信しました" ∧
    Effect.emitPrivateMessageTo "s2" "id1" "Eve" "Root" "hello world" "T1" "#123456"
      ∈ (cmdPrm envFix ["Root", "hello", "world"] "Eve" "s1" stFix).2.2 ∧
    Effect.emitPrivateMessageMonitorTo "s2" "id1" "Eve" "Root" "hello world" "T1" "#123456"
      ∈ (cmdPrm envFix ["Root", "hello", "world"] "Eve" "s1" stFix).2.2 := by
  have h := (c7_prm_routing envFix stFix "Eve" "s1" "Root" ["hello", "world"]
    (by decide)).2.2 ["s2"] (by decide) (by decide)
  refine ⟨h.1.trans (by decide), ?_, ?_⟩
  · have := h.2.2.2.1 "s2" (by decide) (by decide)
    simpa using this
  · have := h.2.2.2.2.1 "Root" (by decide) ["s2"] (by decide) "s2" (by decide)
      (by decide)
    simpa using this

/-- C8 counterexample: with a logged-in user present in the startup
`users` cache, the `/color #abc` confirmation is broadcast room-wide
(`io.emit('systemMessage', …)`), not delivered to the sender only; and a
logged-in user absent from that cache gets the usage error even for a
valid color, with no update. -/
theorem c8_counterexample :
    (sendMessage envFix (some "Eve") (some "#123456") "s1" "/color #abc" none
        stFix).2.2
      = [Effect.dbUpdateUser "Eve" "#abc", Effect.emitProfileUpdatedTo "s1" "#abc",
         Effect.emitSystemMessageAll "Eveさんの名前の色を #abc に変更しました"] ∧
    sendMessage envFix (some "Eve") (some "#123456") "s1" "/color #abc" none
        stFixNoCache
      = (.ok none, stFixNoCache,
         [Effect.emitSystemMessageTo "s1"
           "使用方法: /color #カラーコード (例: /color #ff0000)"]) := by
  decide

/-- C8 (amended): for a logged-in user present in the startup-loaded
`users` cache, `/color` with `#` plus 3–6 hex digits updates the cached
color, persists it to the account and sends a `profileUpdated` event to
the sender, while the textual confirmation is broadcast room-wide; an
invalid or missing argument, or a user absent from the cache, yields the
usage error with no state change. -/
theorem c8_color_update (env : Env) (st : ServerState) (u sid arg : String) :
    (∀ c0, mapGet st.users u = some c0 → arg ≠ "" → isColorCode arg = true →
      cmdColor [arg] u sid st =
        (.system (u ++ "さんの名前の色を " ++ arg ++ " に変更しました"),
         { st with users := mapSet st.users u arg },
         [Effect.dbUpdateUser u arg, Effect.emitProfileUpdatedTo sid arg])) ∧
    (isColorCode arg = false →
      cmdColor [arg] u sid st
        = (.error "使用方法: /color #カラーコード (例: /color #ff0000)", st, [])) ∧
    (mapGet st.users u = none →
      cmdColor [arg] u sid st
        = (.error "使用方法: /color #カラーコード (例: /color #ff0000)", st, [])) ∧
    (cmdColor [] u sid st
      = (.error "使用方法: /color #カラーコード (例: /color #ff0000)", st, [])) ∧
    (∀ text acctColor replyTo c0,
      mapGet st.mutedUsers u = none →
      startsWithSlash text = true →
      tokenize text = ["/color", arg] →
      mapGet st.users u = some c0 → arg ≠ "" → isColorCode arg = true →
      sendMessage env (some u) acctColor sid text replyTo st =
        (.ok none, { st with users := mapSet st.users u arg },
         [Effect.dbUpdateUser u arg, Effect.emitProfileUpdatedTo sid arg,
          Effect.emitSystemMessageAll
            (u ++ "さんの名前の色を " ++ arg ++ " に変更しました")])) := by
  have husage : ∀ c0, mapGet st.users u = some c0 → arg ≠ "" →
      isColorCode arg = true →
      cmdColor [arg] u sid st =
        (.system (u ++ "さんの名前の色を " ++ arg ++ " に変更しました"),
         { st with users := mapSet st.users u arg },
         [Effect.dbUpdateUser u arg, Effect.emitProfileUpdatedTo sid arg]) := by
    intro c0 hc0 harg hcolor
    unfold cmdColor
    simp only [List.headD_cons]
    rw [if_pos ⟨harg, hcolor⟩,
      if_pos (show mapHas st.users u = true by unfold mapHas; rw [hc0]; rfl)]
  refine ⟨husage, ?_, ?_, ?_, ?_⟩
  · intro hcolor
    unfold cmdColor
    simp only [List.headD_cons]
    rw [if_neg (by rintro ⟨-, hc⟩; rw [hcolor] at hc; cases hc)]
  · intro hnone
    unfold cmdColor
    simp only [List.headD_cons]
    by_cases hc : arg ≠ "" ∧ isColorCode arg = true
    · rw [if_pos hc,
        if_neg (show ¬ mapHas st.users u = true by unfold mapHas; rw [hnone]; simp)]
    · rw [if_neg hc]
  · unfold cmdColor
    simp only [List.headD_nil]
    rw [if_neg (by rintro ⟨h1, -⟩; exact h1 rfl)]
  · intro text acctColor replyTo c0 hmute hsw htok hc0 harg hcolor
    simp only [sendMessage]
    rw [checkMuted_absent env.now st.mutedUsers u hmute]
    rw [show ({ st with mutedUsers := st.mutedUsers } : ServerState) = st from rfl]
    rw [if_neg (by simp), if_pos hsw]
    simp only [processCommand]
    rw [htok]
    simp only [List.headD_cons, List.tail_cons]
    rw [show jsToLower "/color" = "/color" from by decide]
    rw [show dispatchCommand env "/color" [arg] u sid
        (decide (sid ∈ st.adminUsers)) st = cmdColor [arg] u sid st from rfl]
    rw [husage c0 hc0 harg hcolor]
    rfl

/-- C8 witness for the amended behaviour at a concrete state. -/
theorem c8_color_update_witness :
    cmdColor ["#abc"] "Eve" "s1" stFix =
      (.system "Eveさんの名前の色を #abc に変更しました",
       { stFix with users := mapSet stFix.users "Eve" "#abc" },
       [Effect.dbUpdateUser "Eve" "#abc", Effect.emitProfileUpdatedTo "s1" "#abc"]) ∧
    cmdColor ["zzz"] "Eve" "s1" stFix =
      (.error "使用方法: /color #カラーコード (例: /color #ff0000)", stFix, []) := by
  constructor
  · exact (c8_color_update envFix stFix "Eve" "s1" "#abc").1 "#123456"
      (by decide) (by decide) (by decide)
  · exact (c8_color_update envFix stFix "Eve" "s1" "zzz").2.1 (by decide)

/-- C10 witness: banned `"Mallory"` rejected on both login paths. -/
theorem c10_banned_login_rejected_witness :
    accountLogin envFix ctxFix "Mallory" "secret" false "" "s3" stBanFix =
      (.failure "あなたはチャットからBANされています", stBanFix, []) ∧
    tokenLogin envFix ctxFix "tok" "s3" stBanFix =
      (.failure "あなたはチャットからBANされています", stBanFix, []) := by
  exact c10_banned_login_rejected envFix ctxFix stBanFix
    { displayName := "Mallory", isAdmin := false }
    "Mallory" "secret" "" "tok" "s3" false
    (by decide) (by decide) (by decide) (by decide) (by decide) (by decide)
    (fun hcontra => absurd hcontra (by decide)) (by decide)

end BbsBe
